import Mathlib
/-!
Shallow embedding of `functorch/csrc/TensorWrapper.cpp`: the level-tagged
proxy value (TensorWrapper) mechanism, its liveness protocol, capability-tag
propagation, the dead-proxy dispatch fallback and the `copy_` mutation
handler.

Fatal assertions (`TORCH_INTERNAL_ASSERT`) are modelled by `Option`: a
function that can assert returns `none` exactly when the assertion fires.
Mutable shared state (the per-level liveness flags) is modelled by an
explicit world `World : Int → Bool` giving the current value of each
level's shared boolean; the fresh always-false handle used by
`makeTensorWrapperPtr` with `should_be_alive = false` is a distinguished
`Handle.deadFresh`.
-/

/-- Capability tags (`c10::DispatchKey`).  The tags the file mentions by
name are constructors; all other tags are `other n`. -/
inductive DispatchKey where
  | AutogradCPU
  | AutogradCUDA
  | AutogradXLA
  | FuncTorchGradWrapper
  | CPU
  | CUDA
  | XLA
  | other (n : Nat)
deriving DecidableEq, Repr

/-- A `c10::DispatchKeySet`, represented as a list of keys; only
membership matters. -/
abbrev DispatchKeySet := List DispatchKey

/-- Membership test (`DispatchKeySet::has`). -/
def DispatchKeySet.has (s : DispatchKeySet) (k : DispatchKey) : Bool :=
  List.contains s k

/-- Insertion (`DispatchKeySet::add`). -/
def DispatchKeySet.add (s : DispatchKeySet) (k : DispatchKey) : DispatchKeySet :=
  List.append s [k]

/-- Set union (`operator|`). -/
def DispatchKeySet.union (s t : DispatchKeySet) : DispatchKeySet :=
  List.append s t

/-- Set intersection (`operator&`). -/
def DispatchKeySet.inter (s t : DispatchKeySet) : DispatchKeySet :=
  List.filter (fun k => DispatchKeySet.has t k) s

/-- The marker tag `kGradWrapperKey` (`DispatchKey::FuncTorchGradWrapper`):
the single fixed is-a-proxy tag. -/
def kGradWrapperKey : DispatchKey := DispatchKey.FuncTorchGradWrapper

/-- Modelled from the spec: `kKeysToPropagateToWrapper`, the fixed
propagation mask (defined in a functorch header that is not part of
`src/`): the tags needed to route back to backend-specific behavior of the
underlying value, represented here by the plain backend tags. -/
def kKeysToPropagateToWrapper : DispatchKeySet :=
  [DispatchKey.CPU, DispatchKey.CUDA, DispatchKey.XLA]

/-- A liveness handle (`std::shared_ptr<bool>`): either the shared
per-level flag owned by the transformation-stack entry for a level, or a
freshly allocated flag holding `false` (the `std::make_shared<bool>(false)`
of `makeTensorWrapperPtr`). -/
inductive Handle where
  | forLevel (l : Int)
  | deadFresh
deriving DecidableEq, Repr

/-- The current state of every level's shared liveness boolean. -/
def World : Type := Int → Bool

/-- Reading a liveness handle in a world (`*is_alive_`). -/
def Handle.read (w : World) : Handle → Bool
  | Handle.forLevel l => w l
  | Handle.deadFresh => false

/-- Modelled from the spec: `getLifeHandleForLevel` (defined in
`DynamicLayer.cpp`, not part of `src/`) returns the shared liveness handle
owned by the transformation-stack entry for `level`. -/
def getLifeHandleForLevel (level : Int) : Handle :=
  Handle.forLevel level

/-- Modelled from the spec: `markDead` — the owning transformation scope
sets the level's shared boolean to `false` when it exits; the flag never
transitions back to `true`. -/
def markDead (w : World) (l : Int) : World :=
  fun x => if x == l then false else w x

/-- A sequence of scope exits applied to a world. -/
def applyMarks (w : World) : List Int → World
  | [] => w
  | l :: ls => applyMarks (markDead w l) ls

/-- An `at::Tensor`: either undefined, a plain tensor (metadata plus an
abstract data payload), or a `TensorWrapper` proxy holding its key set, the
wrapped value, its creation level, its liveness handle, and the mirrored
metadata (`sizes_and_strides_`, `storage_offset_`, `numel_`,
`is_contiguous_`) that `refreshMetadata` computes at construction. -/
inductive Tensor where
  | undef
  | base (keys : List DispatchKey) (sizes strides : List Int)
      (storageOffset : Int) (data : Int)
  | wrapper (keys : List DispatchKey) (value : Tensor) (level : Int)
      (handle : Handle) (mirSizes mirStrides : List Int) (mirOffset : Int)
      (mirNumel : Int) (mirContig : Bool)
deriving DecidableEq, Repr

/-- `Tensor::defined()`. -/
def Tensor.defined : Tensor → Bool
  | Tensor.undef => false
  | _ => true

/-- `Tensor::key_set()`; an undefined tensor carries no functorch tags. -/
def Tensor.keySet : Tensor → DispatchKeySet
  | Tensor.undef => []
  | Tensor.base keys _ _ _ _ => keys
  | Tensor.wrapper keys _ _ _ _ _ _ _ _ => keys

/-- `Tensor::sizes()`: a wrapper reports its mirrored sizes. -/
def Tensor.sizes : Tensor → List Int
  | Tensor.undef => []
  | Tensor.base _ sizes _ _ _ => sizes
  | Tensor.wrapper _ _ _ _ mirSizes _ _ _ _ => mirSizes

/-- `Tensor::strides()`: a wrapper reports its mirrored strides. -/
def Tensor.strides : Tensor → List Int
  | Tensor.undef => []
  | Tensor.base _ _ strides _ _ => strides
  | Tensor.wrapper _ _ _ _ _ mirStrides _ _ _ => mirStrides

/-- `Tensor::storage_offset()`: a wrapper reports its mirrored offset. -/
def Tensor.storage_offset : Tensor → Int
  | Tensor.undef => 0
  | Tensor.base _ _ _ o _ => o
  | Tensor.wrapper _ _ _ _ _ _ mirOffset _ _ => mirOffset

/-- `Tensor::dim()`. -/
def Tensor.dim (t : Tensor) : Nat :=
  List.length t.sizes

/-- The abstract data payload of a value (used only to model the external
`copy_` kernel); a wrapper's payload is its underlying value's payload. -/
def Tensor.dataOf : Tensor → Int
  | Tensor.undef => 0
  | Tensor.base _ _ _ _ d => d
  | Tensor.wrapper _ v _ _ _ _ _ _ _ => Tensor.dataOf v

/-- Element count of a size list (`refresh_numel`). -/
def listNumel : List Int → Int
  | [] => 1
  | s :: rest => s * listNumel rest

/-- Inner loop of the host library's contiguity recomputation
(`refresh_contiguous`), walking the (size, stride) pairs from the last
dimension to the first with the expected stride `z`. -/
def contigGo : List (Int × Int) → Int → Bool
  | [], _ => true
  | p :: rest, z =>
      if p.fst == 1 then contigGo rest z
      else if p.snd == z then contigGo rest (z * p.fst) else false

/-- The host library's contiguity predicate recomputed by
`refresh_contiguous`: an empty tensor is contiguous; otherwise strides must
match the row-major expectation, skipping extent-1 dimensions. -/
def computeContiguous (sizes strides : List Int) : Bool :=
  if listNumel sizes == 0 then true
  else contigGo (List.reverse (List.zip sizes strides)) 1
namespace TensorWrapper

/-- `TensorWrapper::value()` (read-only accessor, no clone); junk value on
a non-wrapper, which well-formed callers never reach. -/
def value : Tensor → Tensor
  | Tensor.wrapper _ v _ _ _ _ _ _ _ => v
  | _ => Tensor.undef

/-- The stored creation level `level_`; junk on a non-wrapper. -/
def level_ : Tensor → Int
  | Tensor.wrapper _ _ l _ _ _ _ _ _ => l
  | _ => 0

/-- The stored liveness handle `is_alive_`; junk on a non-wrapper. -/
def handleOf : Tensor → Handle
  | Tensor.wrapper _ _ _ h _ _ _ _ _ => h
  | _ => Handle.deadFresh

/-- `TensorWrapper::is_alive()`: dereferences the shared boolean. -/
def is_alive (w : World) (t : Tensor) : Bool :=
  Handle.read w (handleOf t)

/-- Modelled from the spec: `TensorWrapper::level()` (declared in the
header, not part of `src/`) returns the creation level if the proxy is
alive, else an absent value. -/
def levelOpt (w : World) (t : Tensor) : Option Int :=
  if is_alive w t then some (level_ t) else none

/-- The `TensorWrapper` constructor: asserts that the wrapped value is
defined and that `use_value_sizes_strides` holds, then runs
`refreshMetadata`, which mirrors the value's sizes, strides and storage
offset and recomputes `numel_` and `is_contiguous_` from the mirror. -/
def construct (key_set : DispatchKeySet) (value : Tensor) (level : Int)
    (is_alive : Handle) (use_value_sizes_strides : Bool) : Option Tensor :=
  if !value.defined then none
  else if !use_value_sizes_strides then none
  else
    let ms := value.sizes
    let mst := List.take (List.length value.sizes) value.strides
    some (Tensor.wrapper key_set value level is_alive ms mst
      value.storage_offset (listNumel ms) (computeContiguous ms mst))
end TensorWrapper

/-- `maybeGetTensorWrapper`: a pure tag check — if the tensor's key set
has `kGradWrapperKey` the tensor's impl is reinterpreted as a wrapper (the
unchecked cast never yields null), else null. -/
def maybeGetTensorWrapper (t : Tensor) : Option Tensor :=
  if DispatchKeySet.has t.keySet kGradWrapperKey then some t else none

/-- Modelled from the spec: `getKeysToPropagateToWrapper` (declared in a
header absent from `src/`) filters the input value's own tag set against
the caller-supplied propagation mask. -/
def getKeysToPropagateToWrapper (tensor : Tensor)
    (to_propagate : DispatchKeySet) : DispatchKeySet :=
  DispatchKeySet.inter tensor.keySet to_propagate

/-- `makeTensorWrapperPtr(tensor, level, should_be_alive)`: recomputes the
propagated key set, adds the proxy marker, and constructs the wrapper with
the level's shared handle, or with a fresh always-false handle when the
caller pre-decides deadness. -/
def makeTensorWrapperPtr (tensor : Tensor) (level : Int)
    (should_be_alive : Bool) : Option Tensor :=
  let keys_to_propagate := DispatchKeySet.union kKeysToPropagateToWrapper
    [DispatchKey.AutogradCPU, DispatchKey.AutogradCUDA, DispatchKey.AutogradXLA]
  let key_set0 := getKeysToPropagateToWrapper tensor keys_to_propagate
  let key_set := DispatchKeySet.add key_set0 kGradWrapperKey
  if should_be_alive then
    TensorWrapper.construct key_set tensor level (getLifeHandleForLevel level) true
  else
    TensorWrapper.construct key_set tensor level Handle.deadFresh true

/-- The mixed comparison `c10::optional<int64_t> < int64_t` used by the
level assertion of `makeTensorWrapper`: an absent optional compares
strictly below every value. -/
def optLtInt : Option Int → Int → Bool
  | none, _ => true
  | some a, b => decide (a < b)

/-- `makeTensorWrapper(tensor, level)`: asserts `wrapped->level() < level`
when the tensor is already a wrapper, recomputes the propagated key set
with the proxy marker, constructs the wrapper with the level's life
handle, and asserts the result's key set carries `kGradWrapperKey`. -/
def makeTensorWrapper (w : World) (tensor : Tensor) (level : Int) :
    Option Tensor :=
  let check : Bool :=
    match maybeGetTensorWrapper tensor with
    | some wrapped => optLtInt (TensorWrapper.levelOpt w wrapped) level
    | none => true
  if !check then none
  else
    let keys_to_propagate := DispatchKeySet.union kKeysToPropagateToWrapper
      [DispatchKey.AutogradCPU, DispatchKey.AutogradCUDA, DispatchKey.AutogradXLA]
    let key_set0 := getKeysToPropagateToWrapper tensor keys_to_propagate
    let key_set := DispatchKeySet.add key_set0 kGradWrapperKey
    match TensorWrapper.construct key_set tensor level
      (getLifeHandleForLevel level) true with
    | none => none
    | some result =>
        if DispatchKeySet.has result.keySet kGradWrapperKey then some result
        else none
namespace TensorWrapper

/-- `TensorWrapper::set_size`: unconditional `TORCH_INTERNAL_ASSERT(false)`. -/
def set_size (t : Tensor) (dim new_size : Int) : Option Tensor :=
  none

/-- `TensorWrapper::set_stride`: unconditional `TORCH_INTERNAL_ASSERT(false)`. -/
def set_stride (t : Tensor) (dim new_stride : Int) : Option Tensor :=
  none

/-- `TensorWrapper::set_storage_offset`: unconditional
`TORCH_INTERNAL_ASSERT(false)`. -/
def set_storage_offset (t : Tensor) (storage_offset : Int) : Option Tensor :=
  none

/-- `TensorWrapper::shallow_copy_from`: unconditional
`TORCH_INTERNAL_ASSERT(false, "NYI")`. -/
def shallow_copy_from (t : Tensor) (impl : Tensor) : Option Tensor :=
  none
end TensorWrapper

/-- Result of `shallow_copy_and_detach`: the freshly constructed wrapper
together with the version counter and metadata-change flag the caller
installed on it. -/
structure DetachResult where
  dest : Option Tensor
  versionCounter : Nat
  allowTensorMetadataChange : Bool
deriving DecidableEq, Repr

/-- `TensorWrapper::shallow_copy_and_detach(version_counter,
allow_tensor_metadata_change)`: builds a new wrapper via
`makeTensorWrapperPtr(value(), level_, is_alive())` — the underlying value
is shared, not copied — then sets the version counter and the
metadata-change flag on it. -/
def shallow_copy_and_detach (w : World) (t : Tensor) (version_counter : Nat)
    (allow_tensor_metadata_change : Bool) : DetachResult :=
  { dest := makeTensorWrapperPtr (TensorWrapper.value t)
      (TensorWrapper.level_ t) (TensorWrapper.is_alive w t)
    versionCounter := version_counter
    allowTensorMetadataChange := allow_tensor_metadata_change }

/-- An operand slot of a `torch::jit::Stack`: a tensor or a non-tensor
value. -/
inductive IValue where
  | tensor (t : Tensor)
  | prim (n : Int)
deriving DecidableEq, Repr

/-- Apply a tensor function to an operand slot, leaving non-tensors
unchanged. -/
def IValue.onTensor (f : Tensor → Tensor) : IValue → IValue
  | IValue.tensor t => IValue.tensor (f t)
  | v => v

/-- Modelled from the spec: the body of `foreachTensorInplace` (declared
in a utils header absent from `src/`) applies `f` to every tensor operand
in stack positions `[b, e)`, indexing from `i`. -/
def foreachGo (f : Tensor → Tensor) (b e : Nat) :
    Nat → List IValue → List IValue
  | _, [] => []
  | i, v :: vs =>
      (if b ≤ i ∧ i < e then IValue.onTensor f v else v)
        :: foreachGo f b e (i + 1) vs

/-- Modelled from the spec: `foreachTensorInplace(stack, b, e, f)` scans
every operand in stack positions `[b, e)` and replaces each tensor operand
`t` by `f t`. -/
def foreachTensorInplace (stack : List IValue) (b e : Nat)
    (f : Tensor → Tensor) : List IValue :=
  foreachGo f b e 0 stack

/-- The unwrap step of `dead_tensor_wrapper_fallback`'s lambda
`unwrapIfDeadAndIncrement`: a dead wrapper is replaced by its underlying
value; alive wrappers and non-wrappers pass through. -/
def unwrapIfDead (w : World) (t : Tensor) : Tensor :=
  match maybeGetTensorWrapper t with
  | none => t
  | some wrapped =>
      if TensorWrapper.is_alive w wrapped then t
      else TensorWrapper.value wrapped

/-- Whether the lambda increments `unwrapped_count` on this tensor: it is
a wrapper whose liveness flag is false. -/
def isDeadWrapper (w : World) (t : Tensor) : Bool :=
  match maybeGetTensorWrapper t with
  | none => false
  | some wrapped => !TensorWrapper.is_alive w wrapped

/-- The value of `unwrapped_count` after the scan: how many tensor
operands in positions `[b, e)` (indexing from `i`) are dead wrappers. -/
def countDeadGo (w : World) (b e : Nat) : Nat → List IValue → Nat
  | _, [] => 0
  | i, v :: vs =>
      (match v with
       | IValue.tensor t =>
           if b ≤ i ∧ i < e then (if isDeadWrapper w t then 1 else 0) else 0
       | IValue.prim _ => 0) + countDeadGo w b e (i + 1) vs

/-- `dead_tensor_wrapper_fallback(op, stack)`: scans the last `args_size`
stack slots with `unwrapIfDeadAndIncrement`, asserts that at least one
operand was actually unwrapped, and re-submits the operation once via
`op.callBoxed` on the substituted stack; the result models the operand
list of that single re-submission, `none` the fatal assertion. -/
def dead_tensor_wrapper_fallback (w : World) (args_size : Nat)
    (stack : List IValue) : Option (List IValue) :=
  let b := List.length stack - args_size
  let e := List.length stack
  let newStack := foreachTensorInplace stack b e (unwrapIfDead w)
  let unwrapped_count := countDeadGo w b e 0 stack
  if unwrapped_count > 0 then some newStack else none

/-- Modelled from the spec: the host system's out-of-scope `copy_` kernel
on plain values — writes the source's data payload into the destination,
preserving the destination's metadata, and returns the destination
value. -/
def Tensor.copyInto (dst src : Tensor) (non_blocking : Bool) : Tensor :=
  match dst with
  | Tensor.base k sz st so _ => Tensor.base k sz st so (Tensor.dataOf src)
  | t => t

/-- Replace a wrapper's underlying value in place (the effect on the
destination proxy of `value().copy_(...)` writing through the shared
reference); non-wrappers are untouched. -/
def Tensor.withValue : Tensor → Tensor → Tensor
  | Tensor.wrapper k _ l h ms mst mo mn mc, nv =>
      Tensor.wrapper k nv l h ms mst mo mn mc
  | t, _ => t

/-- The observable effect of one `copy_wrapper_tensor_` call: whether the
soft diagnostic (`TORCH_WARN`) fired, the post-call state of the
destination operand, and the returned tensor. -/
structure CopyEffect where
  warned : Bool
  newSelf : Tensor
  ret : Tensor
deriving DecidableEq, Repr

/-- `copy_wrapper_tensor_(self, src, non_blocking)`: if either operand is
not a wrapper, or the liveness-sensitive `level()` optionals differ, it
warns and returns `self` unmodified; otherwise it performs
`self_impl->value().copy_(src_impl->value(), non_blocking)` and returns
that call's result — a reference to the destination's underlying
value. -/
def copy_wrapper_tensor_ (w : World) (self src : Tensor)
    (non_blocking : Bool) : CopyEffect :=
  match maybeGetTensorWrapper self, maybeGetTensorWrapper src with
  | some self_impl, some src_impl =>
      if TensorWrapper.levelOpt w self_impl == TensorWrapper.levelOpt w src_impl
      then
        let newU := Tensor.copyInto (TensorWrapper.value self_impl)
          (TensorWrapper.value src_impl) non_blocking
        { warned := false, newSelf := Tensor.withValue self newU, ret := newU }
      else { warned := true, newSelf := self, ret := self }
  | _, _ => { warned := true, newSelf := self, ret := self }

/-- The key set both construction entry points recompute for a wrapper of
`tensor` (the identical blocks at lines 62-65 and 79-82 of the source):
the value's tags filtered by the propagation mask extended with the
Autograd backend tags, plus the proxy marker tag. -/
def wrapperKeySetOf (tensor : Tensor) : DispatchKeySet :=
  DispatchKeySet.add
    (getKeysToPropagateToWrapper tensor
      (DispatchKeySet.union kKeysToPropagateToWrapper
        [DispatchKey.AutogradCPU, DispatchKey.AutogradCUDA, DispatchKey.AutogradXLA]))
    kGradWrapperKey

/-- The wrapper value every successful construction path produces for `v`
at `level` with liveness handle `h`; used to state the characterization
lemmas about `makeTensorWrapper` and `makeTensorWrapperPtr`. -/
def constructedWrapper (v : Tensor) (level : Int) (h : Handle) : Tensor :=
  Tensor.wrapper (wrapperKeySetOf v) v level h v.sizes
    (List.take (List.length v.sizes) v.strides) v.storage_offset
    (listNumel v.sizes)
    (computeContiguous v.sizes (List.take (List.length v.sizes) v.strides))
namespace TensorWrapper

/-- The stored mirrored element count `numel_`; junk on a non-wrapper. -/
def numel_ : Tensor → Int
  | Tensor.wrapper _ _ _ _ _ _ _ mn _ => mn
  | _ => 0

/-- The stored mirrored contiguity flag `is_contiguous_`; junk on a
non-wrapper. -/
def is_contiguous_ : Tensor → Bool
  | Tensor.wrapper _ _ _ _ _ _ _ _ mc => mc
  | _ => true
end TensorWrapper

/-- Following the claim's words for the dead-proxy fallback: one operand
slot of the substituted list — a dead proxy is replaced by its underlying
value, every other operand is left unchanged. -/
def specSlot (w : World) : IValue → IValue
  | IValue.tensor t =>
      if isDeadWrapper w t then IValue.tensor (TensorWrapper.value t)
      else IValue.tensor t
  | v => v

/-- Following the claim's words: the substituted operand list — `specSlot`
applied to every slot in the operation's argument window `[b, e)`,
everything else untouched. -/
def specSubstituted (w : World) (b e : Nat) : Nat → List IValue → List IValue
  | _, [] => []
  | i, v :: vs =>
      (if b ≤ i ∧ i < e then specSlot w v else v)
        :: specSubstituted w b e (i + 1) vs

/-- Following the claim's words: whether at least one operand in the
argument window `[b, e)` is a dead proxy. -/
def anyDeadGo (w : World) (b e : Nat) : Nat → List IValue → Bool
  | _, [] => false
  | i, v :: vs =>
      (match v with
       | IValue.tensor t => decide (b ≤ i ∧ i < e) && isDeadWrapper w t
       | IValue.prim _ => false) || anyDeadGo w b e (i + 1) vs

/-- A world where every level's liveness flag is still true. -/
def wTrue : World := fun _ => true

/-- A concrete plain tensor used by the witnesses. -/
def sampleBase : Tensor := Tensor.base [] [2, 3] [3, 1] 0 7

/-- A second concrete plain tensor with a different data payload. -/
def sampleBase2 : Tensor := Tensor.base [] [2, 3] [3, 1] 0 9

/-- A concrete plain tensor that carries an Autograd tag. -/
def sampleBaseAutograd : Tensor :=
  Tensor.base [DispatchKey.CPU, DispatchKey.AutogradCPU] [4] [1] 0 5
def sampleAliveWrapper : Tensor :=
  Tensor.wrapper [DispatchKey.FuncTorchGradWrapper] sampleBase 1
    (Handle.forLevel 1) [2, 3] [3, 1] 0 6 true

/-- A live proxy of `sampleBase` created at level 2 (the value
`makeTensorWrapper` produces there). -/
def sampleW2 : Tensor := constructedWrapper sampleBase 2 (Handle.forLevel 2)

/-- A known-dead proxy of `sampleBase` created at level 5 (the value
`makeTensorWrapperPtr` with `should_be_alive = false` produces there). -/
def sampleDeadW5 : Tensor := constructedWrapper sampleBase 5 Handle.deadFresh

/-- A live proxy of the Autograd-tagged sample tensor at level 1. -/
def sampleWAuto : Tensor :=
  constructedWrapper sampleBaseAutograd 1 (Handle.forLevel 1)

/-- A live level-1 proxy of `sampleBase`, destination of the concrete
copy. -/
def cSelf : Tensor := constructedWrapper sampleBase 1 (Handle.forLevel 1)

/-- A live level-1 proxy of `sampleBase2`, source of the concrete copy. -/
def cSrc : Tensor := constructedWrapper sampleBase2 1 (Handle.forLevel 1)

/-- A dead proxy of `sampleBase` created at level 3. -/
def deadW3 : Tensor := constructedWrapper sampleBase 3 Handle.deadFresh

/-- A dead proxy of `sampleBase2` created at level 7. -/
def deadW7 : Tensor := constructedWrapper sampleBase2 7 Handle.deadFresh

/-- An alive level-3 proxy of `sampleBase2`, sharing dead `deadW3`'s
creation level. -/
def aliveW3 : Tensor := constructedWrapper sampleBase2 3 (Handle.forLevel 3)
theorem has_iff_mem (s : DispatchKeySet) (k : DispatchKey) :
    DispatchKeySet.has s k = true ↔ k ∈ s := by
  unfold DispatchKeySet.has
  exact List.elem_iff
theorem has_add_iff (s : DispatchKeySet) (k k' : DispatchKey) :
    DispatchKeySet.has (DispatchKeySet.add s k) k' = true ↔
      (DispatchKeySet.has s k' = true ∨ k' = k) := by
  simp [has_iff_mem, DispatchKeySet.add]
theorem has_inter_iff (s t : DispatchKeySet) (k : DispatchKey) :
    DispatchKeySet.has (DispatchKeySet.inter s t) k = true ↔
      (DispatchKeySet.has s k = true ∧ DispatchKeySet.has t k = true) := by
  simp [has_iff_mem, DispatchKeySet.inter, List.mem_filter]
theorem wrapperKeySetOf_has (v : Tensor) (k : DispatchKey) :
    DispatchKeySet.has (wrapperKeySetOf v) k = true ↔
      ((DispatchKeySet.has v.keySet k = true ∧
        DispatchKeySet.has (DispatchKeySet.union kKeysToPropagateToWrapper
          [DispatchKey.AutogradCPU, DispatchKey.AutogradCUDA, DispatchKey.AutogradXLA]) k = true)
        ∨ k = kGradWrapperKey) := by
  unfold wrapperKeySetOf getKeysToPropagateToWrapper
  rw [has_add_iff, has_inter_iff]
theorem wrapperKeySetOf_has_grad (v : Tensor) :
    DispatchKeySet.has (wrapperKeySetOf v) kGradWrapperKey = true := by
  rw [wrapperKeySetOf_has]
  right
  rfl
theorem construct_characterization (ks : DispatchKeySet) (v : Tensor) (l : Int) (h : Handle) :
    TensorWrapper.construct ks v l h true =
      if v.defined = true then
        some (Tensor.wrapper ks v l h v.sizes
          (List.take (List.length v.sizes) v.strides) v.storage_offset
          (listNumel v.sizes)
          (computeContiguous v.sizes (List.take (List.length v.sizes) v.strides)))
      else none := by
  unfold TensorWrapper.construct
  cases hv : v.defined <;> simp [hv]
theorem makeTensorWrapperPtr_characterization (v : Tensor) (l : Int) (alive : Bool) :
    makeTensorWrapperPtr v l alive =
      if v.defined = true then
        some (constructedWrapper v l
          (if alive then Handle.forLevel l else Handle.deadFresh))
      else none := by
  unfold makeTensorWrapperPtr constructedWrapper wrapperKeySetOf getLifeHandleForLevel getKeysToPropagateToWrapper
  cases alive <;> simp [construct_characterization]
theorem makeTensorWrapper_characterization (w : World) (v : Tensor) (l : Int) :
    makeTensorWrapper w v l =
      if (DispatchKeySet.has v.keySet kGradWrapperKey = false ∨
          optLtInt (TensorWrapper.levelOpt w v) l = true) ∧ v.defined = true
      then some (constructedWrapper v l (Handle.forLevel l))
      else none := by
  unfold makeTensorWrapper maybeGetTensorWrapper
  cases hk : DispatchKeySet.has v.keySet kGradWrapperKey with
  | false =>
      simp only [hk, Bool.false_eq_true, if_false]
      rw [construct_characterization]
      cases hd : v.defined <;>
        simp [hd, constructedWrapper, wrapperKeySetOf, getLifeHandleForLevel,
          getKeysToPropagateToWrapper, wrapperKeySetOf_has_grad]
      · exact (wrapperKeySetOf_has_grad v)
  | true =>
      simp only [hk, if_true]
      cases hc : optLtInt (TensorWrapper.levelOpt w v) l with
      | false => simp [hc, hk]
      | true =>
          simp only [hc, Bool.not_true, if_false]
          rw [construct_characterization]
          cases hd : v.defined <;>
            simp [hd, hk, hc, constructedWrapper, wrapperKeySetOf, getLifeHandleForLevel,
              getKeysToPropagateToWrapper]
          · exact (wrapperKeySetOf_has_grad v)
theorem applyMarks_dead (ls : List Int) : ∀ (w : World) (x : Int),
    w x = false → applyMarks w ls x = false := by
  induction ls with
  | nil => intro w x h; exact h
  | cons l ls ih =>
      intro w x h
      refine ih (markDead w l) x ?_
      unfold markDead
      by_cases hx : x == l <;> simp [hx, h]
theorem markDead_self (w : World) (l : Int) : markDead w l l = false := by
  unfold markDead
  simp

/-- C4: while a proxy's liveness handle reads true, `level()` is present
and equal to the stored creation level and `is_alive()` is true; once the
handle reads false, `level()` is absent and `is_alive()` is false; and
after the level's shared flag is marked dead, no further sequence of scope
exits can revive it, so neither observation recovers. -/
theorem c4_level_liveness_lifecycle (w : World) (t : Tensor) (lv : Int)
    (hh : TensorWrapper.handleOf t = Handle.forLevel lv) :
    (w lv = true →
      TensorWrapper.is_alive w t = true ∧
      TensorWrapper.levelOpt w t = some (TensorWrapper.level_ t)) ∧
    (w lv = false →
      TensorWrapper.is_alive w t = false ∧
      TensorWrapper.levelOpt w t = none) ∧
    (∀ ls : List Int,
      TensorWrapper.is_alive (applyMarks (markDead w lv) ls) t = false ∧
      TensorWrapper.levelOpt (applyMarks (markDead w lv) ls) t = none) := by
  have halive : ∀ w' : World, TensorWrapper.is_alive w' t = w' lv := by
    intro w'
    unfold TensorWrapper.is_alive
    rw [hh]
    rfl
  refine ⟨?_, ?_, ?_⟩
  · intro hw
    rw [TensorWrapper.levelOpt, halive, hw]
    simp
  · intro hw
    rw [TensorWrapper.levelOpt, halive, hw]
    simp
  · intro ls
    have hdead : applyMarks (markDead w lv) ls lv = false :=
      applyMarks_dead ls (markDead w lv) lv (markDead_self w lv)
    rw [TensorWrapper.levelOpt, halive, hdead]
    simp

/-- C4 witness: the lifecycle theorem applied to a concrete level-1 proxy
in the all-alive world, before and after level 1 is marked dead. -/
theorem c4_level_liveness_lifecycle_witness :
    (TensorWrapper.is_alive wTrue sampleAliveWrapper = true ∧
      TensorWrapper.levelOpt wTrue sampleAliveWrapper = some 1) ∧
    (TensorWrapper.is_alive (applyMarks (markDead wTrue 1) [1, 2]) sampleAliveWrapper = false ∧
      TensorWrapper.levelOpt (applyMarks (markDead wTrue 1) [1, 2]) sampleAliveWrapper = none) :=
  ⟨(c4_level_liveness_lifecycle wTrue sampleAliveWrapper 1 rfl).1 rfl,
   (c4_level_liveness_lifecycle wTrue sampleAliveWrapper 1 rfl).2.2 [1, 2]⟩

/-- C7: the direct metadata mutators `set_size`, `set_stride` and
`set_storage_offset`, and the full-identity reassignment
`shallow_copy_from`, fail with a fatal assertion on every proxy and every
argument: they never modify the proxy and never return normally. -/
theorem c7_mutators_always_assert :
    ∀ (t : Tensor) (d ns nst so : Int) (impl : Tensor),
      TensorWrapper.set_size t d ns = none ∧
      TensorWrapper.set_stride t d nst = none ∧
      TensorWrapper.set_storage_offset t so = none ∧
      TensorWrapper.shallow_copy_from t impl = none := by
  intro t d ns nst so impl
  exact ⟨rfl, rfl, rfl, rfl⟩
theorem levelOpt_constructed (w : World) (v : Tensor) (l : Int) :
    TensorWrapper.levelOpt w (constructedWrapper v l (Handle.forLevel l)) =
      if w l then some l else none := by
  unfold TensorWrapper.levelOpt TensorWrapper.is_alive constructedWrapper
  simp [TensorWrapper.handleOf, Handle.read, TensorWrapper.level_]
theorem maybeGetTensorWrapper_some (t r : Tensor)
    (h : maybeGetTensorWrapper t = some r) :
    r = t ∧ DispatchKeySet.has t.keySet kGradWrapperKey = true := by
  unfold maybeGetTensorWrapper at h
  by_cases hk : DispatchKeySet.has t.keySet kGradWrapperKey <;> simp [hk] at h
  exact ⟨h.symm, hk⟩
theorem makeTensorWrapper_some_shape (w : World) (v r : Tensor) (l : Int)
    (h : makeTensorWrapper w v l = some r) :
    r = constructedWrapper v l (Handle.forLevel l) ∧ v.defined = true := by
  rw [makeTensorWrapper_characterization] at h
  by_cases hc : (DispatchKeySet.has v.keySet kGradWrapperKey = false ∨
      optLtInt (TensorWrapper.levelOpt w v) l = true) ∧ v.defined = true
  · rw [if_pos hc] at h
    exact ⟨(Option.some_inj.mp h).symm, hc.2⟩
  · rw [if_neg hc] at h
    exact absurd h (Option.noConfusion)

/-- C1 counterexample: the claim fails twice on the code.  A known-dead
proxy created at level 5 can be re-wrapped at the lower level 3 — the
level assertion compares the liveness-sensitive `level()` optional, and an
absent optional is below every level — although the claim says the
construction must fail; and wrapping an alive level-9 proxy at level 1
fails, although the claim promises that wrapping every value at `l1 = 1`
succeeds. -/
theorem c1_construction_counterexample :
    ((makeTensorWrapperPtr sampleBase 5 false).bind
      (fun dw => makeTensorWrapper wTrue dw 3)).isSome = true ∧
    ((makeTensorWrapper wTrue sampleBase 9).bind
      (fun aw => makeTensorWrapper wTrue aw 1)) = none := by
  decide

/-- C1 (amended): `makeTensorWrapper` asserts when the underlying value is
undefined; the constructor asserts when the preserve-shape flag is false;
when the underlying value is an alive proxy the construction asserts
exactly if its level is not strictly below the new level, while a dead
inner proxy passes the check at every level; consequently, for a value
whose wrap at `l1` succeeds while level `l1` is alive, re-wrapping at any
`l2 > l1` succeeds, and wrapping at an alive `l2` first and then at
`l1 < l2` fails the construction assertion. -/
theorem c1_construction_assertions :
    (∀ (w : World) (l : Int), makeTensorWrapper w Tensor.undef l = none) ∧
    (∀ (ks : DispatchKeySet) (v : Tensor) (l : Int) (h : Handle),
      TensorWrapper.construct ks v l h false = none) ∧
    (∀ (w : World) (t r : Tensor) (l : Int),
      maybeGetTensorWrapper t = some r →
      TensorWrapper.is_alive w r = true →
      ¬ TensorWrapper.level_ r < l →
      makeTensorWrapper w t l = none) ∧
    (∀ (w : World) (t r : Tensor) (l : Int),
      maybeGetTensorWrapper t = some r →
      TensorWrapper.is_alive w r = false →
      (makeTensorWrapper w t l).isSome = true) ∧
    (∀ (w : World) (v r : Tensor) (l1 l2 : Int),
      l1 < l2 → w l1 = true →
      makeTensorWrapper w v l1 = some r →
      (makeTensorWrapper w r l2).isSome = true) ∧
    (∀ (w : World) (v r : Tensor) (l1 l2 : Int),
      l1 < l2 → w l2 = true →
      makeTensorWrapper w v l2 = some r →
      makeTensorWrapper w r l1 = none) := by
  refine ⟨?_, ?_, ?_, ?_, ?_, ?_⟩
  · intro w l
    rw [makeTensorWrapper_characterization]
    simp [Tensor.defined]
  · intro ks v l h
    unfold TensorWrapper.construct
    by_cases hv : v.defined <;> simp [hv]
  · intro w t r l hm halive hlev
    obtain ⟨hrt, hk⟩ := maybeGetTensorWrapper_some t r hm
    subst hrt
    rw [makeTensorWrapper_characterization]
    rw [if_neg]
    intro hcond
    rcases hcond.1 with hfalse | hlt
    · rw [hk] at hfalse
      exact Bool.noConfusion hfalse
    · unfold optLtInt TensorWrapper.levelOpt at hlt
      rw [halive] at hlt
      simp at hlt
      exact hlev hlt
  · intro w t r l hm hdead
    obtain ⟨hrt, hk⟩ := maybeGetTensorWrapper_some t r hm
    subst hrt
    have hdef : r.defined = true := by
      cases r with
      | undef => simp [Tensor.keySet, DispatchKeySet.has, List.contains] at hk
      | base ks sz st so d => rfl
      | wrapper ks v l h ms mst mo mn mc => rfl
    rw [makeTensorWrapper_characterization]
    rw [if_pos]
    · rfl
    · refine ⟨Or.inr ?_, hdef⟩
      unfold optLtInt TensorWrapper.levelOpt
      rw [hdead]
      rfl
  · intro w v r l1 l2 hlt hw1 hmk
    obtain ⟨hr, hdef⟩ := makeTensorWrapper_some_shape w v r l1 hmk
    subst hr
    rw [makeTensorWrapper_characterization]
    rw [if_pos]
    · rfl
    · constructor
      · right
        rw [levelOpt_constructed, hw1]
        simp [optLtInt, hlt]
      · rfl
  · intro w v r l1 l2 hlt hw2 hmk
    obtain ⟨hr, hdef⟩ := makeTensorWrapper_some_shape w v r l2 hmk
    subst hr
    rw [makeTensorWrapper_characterization]
    rw [if_neg]
    intro hcond
    rcases hcond.1 with hfalse | hlt2
    · have : DispatchKeySet.has (constructedWrapper v l2 (Handle.forLevel l2)).keySet
          kGradWrapperKey = true := wrapperKeySetOf_has_grad v
      rw [this] at hfalse
      exact Bool.noConfusion hfalse
    · rw [levelOpt_constructed, hw2] at hlt2
      simp [optLtInt] at hlt2
      omega

/-- C1 witness: the amended construction invariant at concrete inputs —
an undefined value, a constructor call with the preserve-shape flag false,
an alive level-2 proxy rejected at levels 1 and 2 but accepted at level 3,
a dead level-5 proxy accepted at level 3, and both wrap orders around
levels 2 and 3. -/
theorem c1_construction_assertions_witness :
    makeTensorWrapper wTrue Tensor.undef 0 = none ∧
    TensorWrapper.construct [] sampleBase 1 Handle.deadFresh false = none ∧
    makeTensorWrapper wTrue sampleW2 2 = none ∧
    (makeTensorWrapper wTrue sampleDeadW5 3).isSome = true ∧
    makeTensorWrapper wTrue sampleW2 1 = none ∧
    (makeTensorWrapper wTrue sampleW2 3).isSome = true :=
  ⟨c1_construction_assertions.1 wTrue 0,
   c1_construction_assertions.2.1 [] sampleBase 1 Handle.deadFresh,
   c1_construction_assertions.2.2.1 wTrue sampleW2 sampleW2 2 (by decide) (by decide)
     (by decide),
   c1_construction_assertions.2.2.2.1 wTrue sampleDeadW5 sampleDeadW5 3 (by decide)
     (by decide),
   c1_construction_assertions.2.2.2.2.2 wTrue sampleBase sampleW2 1 2 (by decide) rfl
     (by decide),
   c1_construction_assertions.2.2.2.2.1 wTrue sampleBase sampleW2 2 3 (by decide) rfl
     (by decide)⟩

/-- C10: a successful `makeTensorWrapper(v, l)` produces a tensor whose
key set contains the is-a-proxy marker (asserted at construction), so
`maybeGetTensorWrapper` applied to it returns the non-null proxy view,
whose underlying value is `v` and whose stored level is `l`; conversely
`maybeGetTensorWrapper` returns null exactly on tensors whose key set
lacks the marker. -/
theorem c10_construction_tag_roundtrip :
    (∀ (w : World) (v r : Tensor) (l : Int),
      makeTensorWrapper w v l = some r →
      DispatchKeySet.has r.keySet kGradWrapperKey = true ∧
      maybeGetTensorWrapper r = some r ∧
      TensorWrapper.value r = v ∧
      TensorWrapper.level_ r = l) ∧
    (∀ t : Tensor, maybeGetTensorWrapper t = none ↔
      DispatchKeySet.has t.keySet kGradWrapperKey = false) := by
  constructor
  · intro w v r l h
    obtain ⟨hr, hdef⟩ := makeTensorWrapper_some_shape w v r l h
    subst hr
    have hk : DispatchKeySet.has
        (constructedWrapper v l (Handle.forLevel l)).keySet kGradWrapperKey = true :=
      wrapperKeySetOf_has_grad v
    refine ⟨hk, ?_, rfl, rfl⟩
    unfold maybeGetTensorWrapper
    rw [hk]
    rfl
  · intro t
    unfold maybeGetTensorWrapper
    by_cases hk : DispatchKeySet.has t.keySet kGradWrapperKey <;> simp [hk]

/-- C10 witness: the round trip at a concrete construction, plus the null
case on a concrete plain tensor. -/
theorem c10_construction_tag_roundtrip_witness :
    (maybeGetTensorWrapper sampleW2 = some sampleW2 ∧
      TensorWrapper.value sampleW2 = sampleBase ∧
      TensorWrapper.level_ sampleW2 = 2) ∧
    maybeGetTensorWrapper sampleBase = none :=
  ⟨(c10_construction_tag_roundtrip.1 wTrue sampleBase sampleW2 2 (by decide)).2,
   (c10_construction_tag_roundtrip.2 sampleBase).mpr (by decide)⟩

/-- C5 counterexample: wrapping a plain tensor whose own tag set is empty
succeeds, yet the proxy's tag set does not contain `AutogradCPU` — the
code unions the differentiation-capable backend tags into the propagation
mask, not into the result, so the claim that every constructed proxy's tag
set contains them is false. -/
theorem c5_tagset_counterexample :
    (makeTensorWrapper wTrue sampleBase 1).isSome = true ∧
    ((makeTensorWrapper wTrue sampleBase 1).map
      (fun r => DispatchKeySet.has r.keySet DispatchKey.AutogradCPU)) =
      some false := by
  decide

/-- C5 (amended): a constructed proxy's tag set equals the value's own tag
set filtered against the propagation mask extended with the
differentiation-capable backend tags, unioned with the single is-a-proxy
marker; the computation is deterministic and recomputed identically by
both construction entry points; every constructed proxy carries the
is-a-proxy tag, and it carries a differentiation-capable backend tag
exactly when the wrapped value's own tag set does. -/
theorem c5_tagset_propagation (w : World) (v r : Tensor) (l : Int)
    (h : makeTensorWrapper w v l = some r) :
    (∀ k : DispatchKey,
      DispatchKeySet.has r.keySet k = true ↔
        ((DispatchKeySet.has v.keySet k = true ∧
          DispatchKeySet.has (DispatchKeySet.union kKeysToPropagateToWrapper
            [DispatchKey.AutogradCPU, DispatchKey.AutogradCUDA,
              DispatchKey.AutogradXLA]) k = true)
          ∨ k = kGradWrapperKey)) ∧
    DispatchKeySet.has r.keySet kGradWrapperKey = true ∧
    (∀ (alive : Bool) (r2 : Tensor),
      makeTensorWrapperPtr v l alive = some r2 → r2.keySet = r.keySet) := by
  obtain ⟨hr, hdef⟩ := makeTensorWrapper_some_shape w v r l h
  subst hr
  refine ⟨?_, wrapperKeySetOf_has_grad v, ?_⟩
  · intro k
    exact wrapperKeySetOf_has v k
  · intro alive r2 h2
    rw [makeTensorWrapperPtr_characterization, if_pos hdef] at h2
    rw [← Option.some_inj.mp h2]
    cases alive <;> rfl

/-- C5 witness: the amended tag-set law at a concrete construction — the
proxy of an Autograd-tagged value carries `AutogradCPU`, the marker tag is
present, and `makeTensorWrapperPtr` computes the same key set. -/
theorem c5_tagset_propagation_witness :
    DispatchKeySet.has sampleWAuto.keySet DispatchKey.AutogradCPU = true ∧
    DispatchKeySet.has sampleWAuto.keySet kGradWrapperKey = true ∧
    (∀ r2 : Tensor, makeTensorWrapperPtr sampleBaseAutograd 1 true = some r2 →
      r2.keySet = sampleWAuto.keySet) :=
  ⟨((c5_tagset_propagation wTrue sampleBaseAutograd sampleWAuto 1 (by decide)).1
      DispatchKey.AutogradCPU).mpr (Or.inl ⟨by decide, by decide⟩),
   (c5_tagset_propagation wTrue sampleBaseAutograd sampleWAuto 1 (by decide)).2.1,
   fun r2 => (c5_tagset_propagation wTrue sampleBaseAutograd sampleWAuto 1
      (by decide)).2.2 true r2⟩

/-- C6: for every proxy produced by construction, the mirrored metadata —
sizes, strides, storage offset, element count and contiguity flag —
exactly matches the metadata computed directly from the wrapped value at
construction time. -/
theorem c6_mirrored_metadata (w : World) (v r : Tensor) (l : Int)
    (hlen : List.length v.strides = List.length v.sizes)
    (h : makeTensorWrapper w v l = some r) :
    r.sizes = (TensorWrapper.value r).sizes ∧
    r.strides = (TensorWrapper.value r).strides ∧
    r.storage_offset = (TensorWrapper.value r).storage_offset ∧
    TensorWrapper.numel_ r = listNumel (TensorWrapper.value r).sizes ∧
    TensorWrapper.is_contiguous_ r =
      computeContiguous (TensorWrapper.value r).sizes
        (TensorWrapper.value r).strides := by
  obtain ⟨hr, hdef⟩ := makeTensorWrapper_some_shape w v r l h
  subst hr
  have htake : List.take (List.length v.sizes) v.strides = v.strides := by
    rw [← hlen]
    exact List.take_length v.strides
  refine ⟨rfl, ?_, rfl, rfl, ?_⟩
  · show List.take (List.length v.sizes) v.strides = v.strides
    exact htake
  · show computeContiguous v.sizes (List.take (List.length v.sizes) v.strides) =
      computeContiguous v.sizes v.strides
    rw [htake]

/-- C6 witness: the mirror law at a concrete construction. -/
theorem c6_mirrored_metadata_witness :
    sampleW2.sizes = sampleBase.sizes ∧
    sampleW2.strides = sampleBase.strides ∧
    TensorWrapper.numel_ sampleW2 = 6 ∧
    TensorWrapper.is_contiguous_ sampleW2 = true :=
  ⟨(c6_mirrored_metadata wTrue sampleBase sampleW2 2 rfl (by decide)).1,
   (c6_mirrored_metadata wTrue sampleBase sampleW2 2 rfl (by decide)).2.1,
   (c6_mirrored_metadata wTrue sampleBase sampleW2 2 rfl (by decide)).2.2.2.1,
   (c6_mirrored_metadata wTrue sampleBase sampleW2 2 rfl (by decide)).2.2.2.2⟩
theorem unwrapIfDead_eq (w : World) (t : Tensor) :
    unwrapIfDead w t =
      if isDeadWrapper w t then TensorWrapper.value t else t := by
  unfold unwrapIfDead isDeadWrapper
  cases hm : maybeGetTensorWrapper t with
  | none => simp
  | some wr =>
      obtain ⟨hw, _⟩ := maybeGetTensorWrapper_some t wr hm
      subst hw
      by_cases ha : TensorWrapper.is_alive w wr <;> simp [ha]
theorem foreachGo_eq_spec (w : World) (b e : Nat) :
    ∀ (i : Nat) (s : List IValue),
      foreachGo (unwrapIfDead w) b e i s = specSubstituted w b e i s := by
  intro i s
  induction s generalizing i with
  | nil => rfl
  | cons v vs ih =>
      unfold foreachGo specSubstituted
      rw [ih]
      by_cases hin : b ≤ i ∧ i < e
      · rw [if_pos hin, if_pos hin]
        cases v with
        | tensor t =>
            by_cases hd : isDeadWrapper w t <;>
              simp [IValue.onTensor, specSlot, unwrapIfDead_eq, hd]
        | prim n => rfl
      · rw [if_neg hin, if_neg hin]
theorem countDeadGo_pos_iff (w : World) (b e : Nat) :
    ∀ (i : Nat) (s : List IValue),
      0 < countDeadGo w b e i s ↔ anyDeadGo w b e i s = true := by
  intro i s
  induction s generalizing i with
  | nil => simp [countDeadGo, anyDeadGo]
  | cons v vs ih =>
      unfold countDeadGo anyDeadGo
      cases v with
      | tensor t =>
          by_cases hin : b ≤ i ∧ i < e
          · by_cases hd : isDeadWrapper w t <;> simp [hin, hd, ih]
          · simp [hin, ih]
      | prim n => simp [ih]

/-- C2: the dead-proxy fallback scans the operation's argument window; it
re-submits the operation exactly once on the operand list where every dead
proxy is replaced by its underlying value and every other operand — alive
proxies and non-proxy values — is unchanged; it asserts fatally (yields
`none`) exactly when no operand was actually unwrapped. -/
theorem c2_dead_fallback_substitution (w : World) (args_size : Nat)
    (stack : List IValue) :
    dead_tensor_wrapper_fallback w args_size stack =
      if anyDeadGo w (List.length stack - args_size) (List.length stack) 0
          stack = true
      then some (specSubstituted w (List.length stack - args_size)
        (List.length stack) 0 stack)
      else none := by
  unfold dead_tensor_wrapper_fallback foreachTensorInplace
  dsimp only
  rw [foreachGo_eq_spec]
  by_cases ha : anyDeadGo w (List.length stack - args_size)
      (List.length stack) 0 stack = true
  · rw [if_pos ha,
      if_pos ((countDeadGo_pos_iff w (List.length stack - args_size)
        (List.length stack) 0 stack).mpr ha)]
  · rw [if_neg ha, if_neg]
    intro hc
    exact ha ((countDeadGo_pos_iff w (List.length stack - args_size)
      (List.length stack) 0 stack).mp hc)
theorem copy_wrapper_warns (w : World) (self src : Tensor) (nb : Bool)
    (h : maybeGetTensorWrapper self = none ∨ maybeGetTensorWrapper src = none ∨
      ¬ TensorWrapper.levelOpt w self = TensorWrapper.levelOpt w src) :
    copy_wrapper_tensor_ w self src nb =
      { warned := true, newSelf := self, ret := self } := by
  unfold copy_wrapper_tensor_
  cases hms : maybeGetTensorWrapper self with
  | none => rfl
  | some si =>
      cases hmr : maybeGetTensorWrapper src with
      | none => rfl
      | some ri =>
          obtain ⟨hsi, _⟩ := maybeGetTensorWrapper_some self si hms
          obtain ⟨hri, _⟩ := maybeGetTensorWrapper_some src ri hmr
          subst hsi
          subst hri
          rcases h with h | h | h
          · rw [hms] at h
            exact absurd h (Option.noConfusion)
          · rw [hmr] at h
            exact absurd h (Option.noConfusion)
          · simp [h]
theorem copy_wrapper_copies (w : World) (self src : Tensor) (nb : Bool)
    (hself : (maybeGetTensorWrapper self).isSome = true)
    (hsrc : (maybeGetTensorWrapper src).isSome = true)
    (hlev : TensorWrapper.levelOpt w self = TensorWrapper.levelOpt w src) :
    copy_wrapper_tensor_ w self src nb =
      { warned := false,
        newSelf := Tensor.withValue self
          (Tensor.copyInto (TensorWrapper.value self)
            (TensorWrapper.value src) nb),
        ret := Tensor.copyInto (TensorWrapper.value self)
          (TensorWrapper.value src) nb } := by
  unfold copy_wrapper_tensor_
  cases hms : maybeGetTensorWrapper self with
  | none => rw [hms] at hself; exact Bool.noConfusion hself
  | some si =>
      cases hmr : maybeGetTensorWrapper src with
      | none => rw [hmr] at hsrc; exact Bool.noConfusion hsrc
      | some ri =>
          obtain ⟨hsi, _⟩ := maybeGetTensorWrapper_some self si hms
          obtain ⟨hri, _⟩ := maybeGetTensorWrapper_some src ri hmr
          subst hsi
          subst hri
          simp [hlev]

/-- C3 counterexample: for two proxies at the same level the handler does
perform the copy (no warning), but it returns the destination's underlying
value — the result of `value().copy_(...)` — which is not the destination
proxy, contradicting the claim that the destination is returned. -/
theorem c3_copy_return_counterexample :
    (copy_wrapper_tensor_ wTrue cSelf cSrc false).warned = false ∧
    ¬ (copy_wrapper_tensor_ wTrue cSelf cSrc false).ret = cSelf := by
  decide

/-- C3 (amended): if either operand is not a proxy or the
liveness-sensitive `level()` values differ, the handler emits a non-fatal
diagnostic warning and leaves the destination unmodified, returning the
destination itself (a no-op, never a thrown failure); if both operands are
proxies at the same `level()`, it performs the copy directly on the two
underlying values and returns the destination's underlying value — the
result of that copy — rather than the destination proxy. -/
theorem c3_copy_mutation_handler (w : World) (self src : Tensor) (nb : Bool) :
    ((maybeGetTensorWrapper self = none ∨ maybeGetTensorWrapper src = none ∨
      ¬ TensorWrapper.levelOpt w self = TensorWrapper.levelOpt w src) →
      copy_wrapper_tensor_ w self src nb =
        { warned := true, newSelf := self, ret := self }) ∧
    ((maybeGetTensorWrapper self).isSome = true →
      (maybeGetTensorWrapper src).isSome = true →
      TensorWrapper.levelOpt w self = TensorWrapper.levelOpt w src →
      copy_wrapper_tensor_ w self src nb =
        { warned := false,
          newSelf := Tensor.withValue self
            (Tensor.copyInto (TensorWrapper.value self)
              (TensorWrapper.value src) nb),
          ret := Tensor.copyInto (TensorWrapper.value self)
            (TensorWrapper.value src) nb }) :=
  ⟨copy_wrapper_warns w self src nb,
   copy_wrapper_copies w self src nb⟩

/-- C3 witness: the amended handler law at concrete inputs — a non-proxy
destination degrades to the warning no-op, and two live level-1 proxies
get the underlying copy. -/
theorem c3_copy_mutation_handler_witness :
    copy_wrapper_tensor_ wTrue sampleBase cSrc false =
      { warned := true, newSelf := sampleBase, ret := sampleBase } ∧
    copy_wrapper_tensor_ wTrue cSelf cSrc false =
      { warned := false,
        newSelf := Tensor.withValue cSelf
          (Tensor.copyInto sampleBase sampleBase2 false),
        ret := Tensor.copyInto sampleBase sampleBase2 false } :=
  ⟨(c3_copy_mutation_handler wTrue sampleBase cSrc false).1 (Or.inl (by decide)),
   (c3_copy_mutation_handler wTrue cSelf cSrc false).2 (by decide) (by decide)
     (by decide)⟩

/-- C9: the mutation handler's same-level test compares the
liveness-sensitive `level()` optionals, so two dead proxies always compare
equal — the copy runs on their underlying values with no warning,
whatever their creation levels — while a dead proxy paired with an alive
one always compares unequal, degrading to the warning no-op even when both
were created at the same level. -/
theorem c9_dead_level_comparison (w : World) (self src : Tensor) (nb : Bool)
    (hself : (maybeGetTensorWrapper self).isSome = true)
    (hsrc : (maybeGetTensorWrapper src).isSome = true) :
    (TensorWrapper.is_alive w self = false →
      TensorWrapper.is_alive w src = false →
      copy_wrapper_tensor_ w self src nb =
        { warned := false,
          newSelf := Tensor.withValue self
            (Tensor.copyInto (TensorWrapper.value self)
              (TensorWrapper.value src) nb),
          ret := Tensor.copyInto (TensorWrapper.value self)
            (TensorWrapper.value src) nb }) ∧
    (TensorWrapper.is_alive w self = false →
      TensorWrapper.is_alive w src = true →
      copy_wrapper_tensor_ w self src nb =
        { warned := true, newSelf := self, ret := self }) ∧
    (TensorWrapper.is_alive w self = true →
      TensorWrapper.is_alive w src = false →
      copy_wrapper_tensor_ w self src nb =
        { warned := true, newSelf := self, ret := self }) := by
  refine ⟨?_, ?_, ?_⟩
  · intro hds hdr
    refine copy_wrapper_copies w self src nb hself hsrc ?_
    unfold TensorWrapper.levelOpt
    rw [hds, hdr]
    simp
  · intro hds har
    refine copy_wrapper_warns w self src nb (Or.inr (Or.inr ?_))
    unfold TensorWrapper.levelOpt
    rw [hds, har]
    simp
  · intro has hdr
    refine copy_wrapper_warns w self src nb (Or.inr (Or.inr ?_))
    unfold TensorWrapper.levelOpt
    rw [has, hdr]
    simp

/-- C9 witness: two dead proxies created at the different levels 3 and 7
still get the underlying copy, while a dead level-3 destination with an
alive level-3 source, and an alive level-3 destination with a dead
level-3 source, both degrade to the warning no-op. -/
theorem c9_dead_level_comparison_witness :
    copy_wrapper_tensor_ wTrue deadW3 deadW7 false =
      { warned := false,
        newSelf := Tensor.withValue deadW3
          (Tensor.copyInto sampleBase sampleBase2 false),
        ret := Tensor.copyInto sampleBase sampleBase2 false } ∧
    copy_wrapper_tensor_ wTrue deadW3 aliveW3 false =
      { warned := true, newSelf := deadW3, ret := deadW3 } ∧
    copy_wrapper_tensor_ wTrue aliveW3 deadW3 false =
      { warned := true, newSelf := aliveW3, ret := aliveW3 } :=
  ⟨(c9_dead_level_comparison wTrue deadW3 deadW7 false (by decide) (by decide)).1
      rfl rfl,
   (c9_dead_level_comparison wTrue deadW3 aliveW3 false (by decide) (by decide)).2.1
      rfl rfl,
   (c9_dead_level_comparison wTrue aliveW3 deadW3 false (by decide) (by decide)).2.2
      rfl rfl⟩

/-- C8: duplication via `shallow_copy_and_detach` builds a new proxy
around the same underlying value (shared, not copied), with the same
creation level; its aliveness at the moment of duplication equals the
original's aliveness at that moment; the supplied version counter and
metadata-change flag are installed on the duplicate. -/
theorem c8_shallow_duplication (w : World) (ks : List DispatchKey)
    (v : Tensor) (lv : Int) (hd : Handle) (ms mst : List Int) (mo mn : Int)
    (mc : Bool) (vc : Nat) (amc : Bool)
    (hdef : v.defined = true)
    (hh : hd = Handle.forLevel lv ∨ hd = Handle.deadFresh) :
    ((shallow_copy_and_detach w (Tensor.wrapper ks v lv hd ms mst mo mn mc)
        vc amc).dest.map TensorWrapper.value = some v) ∧
    ((shallow_copy_and_detach w (Tensor.wrapper ks v lv hd ms mst mo mn mc)
        vc amc).dest.map TensorWrapper.level_ = some lv) ∧
    ((shallow_copy_and_detach w (Tensor.wrapper ks v lv hd ms mst mo mn mc)
        vc amc).dest.map (TensorWrapper.is_alive w) =
      some (TensorWrapper.is_alive w
        (Tensor.wrapper ks v lv hd ms mst mo mn mc))) ∧
    (shallow_copy_and_detach w (Tensor.wrapper ks v lv hd ms mst mo mn mc)
        vc amc).versionCounter = vc ∧
    (shallow_copy_and_detach w (Tensor.wrapper ks v lv hd ms mst mo mn mc)
        vc amc).allowTensorMetadataChange = amc := by
  have hval : TensorWrapper.value (Tensor.wrapper ks v lv hd ms mst mo mn mc) = v := rfl
  have hlev : TensorWrapper.level_ (Tensor.wrapper ks v lv hd ms mst mo mn mc) = lv := rfl
  unfold shallow_copy_and_detach
  rw [hval, hlev]
  dsimp only
  rw [makeTensorWrapperPtr_characterization, if_pos hdef]
  have halive : TensorWrapper.is_alive w (Tensor.wrapper ks v lv hd ms mst mo mn mc) =
      Handle.read w hd := rfl
  rw [halive]
  rcases hh with hh | hh <;> subst hh
  · cases hw : w lv with
    | false =>
        simp [Handle.read, hw, TensorWrapper.is_alive, TensorWrapper.handleOf,
          constructedWrapper, TensorWrapper.value, TensorWrapper.level_]
    | true =>
        simp [Handle.read, hw, TensorWrapper.is_alive, TensorWrapper.handleOf,
          constructedWrapper, TensorWrapper.value, TensorWrapper.level_]
  · simp [Handle.read, TensorWrapper.is_alive, TensorWrapper.handleOf,
      constructedWrapper, TensorWrapper.value, TensorWrapper.level_]

/-- C8 witness: duplication of the concrete live level-2 proxy and of a
concrete dead level-3 proxy, with version counter 7 and the
metadata-change flag set. -/
theorem c8_shallow_duplication_witness :
    ((shallow_copy_and_detach wTrue sampleW2 7 true).dest.map
      TensorWrapper.value = some sampleBase) ∧
    ((shallow_copy_and_detach wTrue sampleW2 7 true).dest.map
      TensorWrapper.level_ = some 2) ∧
    ((shallow_copy_and_detach wTrue sampleW2 7 true).dest.map
      (TensorWrapper.is_alive wTrue) =
        some (TensorWrapper.is_alive wTrue sampleW2)) ∧
    ((shallow_copy_and_detach wTrue deadW3 0 false).dest.map
      (TensorWrapper.is_alive wTrue) =
        some (TensorWrapper.is_alive wTrue deadW3)) :=
  ⟨(c8_shallow_duplication wTrue (wrapperKeySetOf sampleBase) sampleBase 2
      (Handle.forLevel 2) sampleBase.sizes
      (List.take (List.length sampleBase.sizes) sampleBase.strides)
      sampleBase.storage_offset (listNumel sampleBase.sizes)
      (computeContiguous sampleBase.sizes
        (List.take (List.length sampleBase.sizes) sampleBase.strides))
      7 true rfl (Or.inl rfl)).1,
   (c8_shallow_duplication wTrue (wrapperKeySetOf sampleBase) sampleBase 2
      (Handle.forLevel 2) sampleBase.sizes
      (List.take (List.length sampleBase.sizes) sampleBase.strides)
      sampleBase.storage_offset (listNumel sampleBase.sizes)
      (computeContiguous sampleBase.sizes
        (List.take (List.length sampleBase.sizes) sampleBase.strides))
      7 true rfl (Or.inl rfl)).2.1,
   (c8_shallow_duplication wTrue (wrapperKeySetOf sampleBase) sampleBase 2
      (Handle.forLevel 2) sampleBase.sizes
      (List.take (List.length sampleBase.sizes) sampleBase.strides)
      sampleBase.storage_offset (listNumel sampleBase.sizes)
      (computeContiguous sampleBase.sizes
        (List.take (List.length sampleBase.sizes) sampleBase.strides))
      7 true rfl (Or.inl rfl)).2.2.1,
   (c8_shallow_duplication wTrue (wrapperKeySetOf sampleBase) sampleBase 3
      Handle.deadFresh sampleBase.sizes
      (List.take (List.length sampleBase.sizes) sampleBase.strides)
      sampleBase.storage_offset (listNumel sampleBase.sizes)
      (computeContiguous sampleBase.sizes
        (List.take (List.length sampleBase.sizes) sampleBase.strides))
      0 false rfl (Or.inr rfl)).2.2.1⟩
